import Mathlib

/-!
Verification of the fosim-tools trace-analysis library.

The Python sources are shallowly embedded: a pandas `DataFrame` becomes a
list of rows (each row a total function from column names to rational
values) together with a list of column names; Python floats become `ℚ`;
exceptions become `Except String`; object identity of `TraceFile`s is
modelled through a heap `Nat → DataFrame`, a trace-file reference being the
`Nat` index, so that two distinct references may point at equal data.
-/

open BigOperators

/-- Equality of `Except` values is decidable when it is on both sides. -/
instance {ε α : Type} [DecidableEq ε] [DecidableEq α] : DecidableEq (Except ε α) := fun a b =>
  match a, b with
  | .ok x, .ok y =>
    if h : x = y then .isTrue (by rw [h]) else .isFalse (by simp [h])
  | .error x, .error y =>
    if h : x = y then .isTrue (by rw [h]) else .isFalse (by simp [h])
  | .ok _, .error _ => .isFalse (by simp)
  | .error _, .ok _ => .isFalse (by simp)

namespace FosimTools

/-- Model of a pandas `DataFrame` holding the numeric trace data: the column
names and the rows in order.  Rows are total functions from column names to
rational values. -/
structure DataFrame where
  columns : List String
  rows : List (String → ℚ)

/-- Model of `pandas.Series.unique`: the distinct values of a list in order
of first appearance (a scan keeping a set of already seen values). -/
def pdUniqueAux (seen : List ℚ) : List ℚ → List ℚ
  | [] => []
  | x :: xs => if x ∈ seen then pdUniqueAux seen xs else x :: pdUniqueAux (x :: seen) xs

/-- The distinct values of a list in order of first appearance. -/
def pdUnique (l : List ℚ) : List ℚ := pdUniqueAux [] l

/-- Model of `pandas.Series.max` (`0` on the empty series, which the code
never hits: the series always comes from a nonempty row selection). -/
def seriesMax : List ℚ → ℚ
  | [] => 0
  | x :: xs => xs.foldl max x

/-- Model of `pandas.Series.min` (`0` on the empty series, see `seriesMax`). -/
def seriesMin : List ℚ → ℚ
  | [] => 0
  | x :: xs => xs.foldl min x

/-- The error message raised by `Statistic._check_column`. -/
def missingColumnMsg (column : String) : String :=
  "Column " ++ column ++ " is not in the provided trace file."

/-- `Statistic._check_column`: raises `ValueError` when the column is not in
the trace file's data frame. -/
def checkColumn (column : String) (df : DataFrame) : Except String Unit :=
  if column ∈ df.columns then .ok () else .error (missingColumnMsg column)

/-- `data_frame[data_frame['id'] == vehicle_id]`: the rows of one vehicle. -/
def idRows (df : DataFrame) (vehicleId : ℚ) : List (String → ℚ) :=
  df.rows.filter fun r => decide (r "id" = vehicleId)

/-- The loop body of `Total.get_si`: iterate over the distinct ids and add
the per-vehicle range width `max - min` of the chosen column. -/
def totalCompute (column : String) (df : DataFrame) : ℚ :=
  (pdUnique (df.rows.map fun r => r "id")).foldl
    (fun value vehicleId =>
      value + seriesMax ((idRows df vehicleId).map fun r => r column)
            - seriesMin ((idRows df vehicleId).map fun r => r column)) 0

/-- The mutable fields of a `Total`-family statistic: the configured column
name plus the cache (`_value`, `_trace_file`).  `_value` and `_trace_file`
are `None` at construction and always set together afterwards. -/
structure TotalState where
  column : String
  value : Option ℚ
  traceFile : Option Nat
deriving DecidableEq

/-- The cache fields of a freshly constructed `Total` with the given column. -/
def totalInit (column : String) : TotalState := ⟨column, none, none⟩

/-- `Total.get_si`.  Checks the statistic's column and `id`, recomputes when
the supplied trace-file reference is not the cached one (Python `is not`,
hence reference inequality over the heap), and returns `self._value`.  The
`Bool` in the result records whether the dataset was scanned
(the recomputation branch was taken). -/
def totalGetSi (heap : Nat → DataFrame) (s : TotalState) (tf : Nat) :
    Except String (ℚ × TotalState × Bool) :=
  match checkColumn s.column (heap tf) with
  | .error e => .error e
  | .ok _ =>
    match checkColumn "id" (heap tf) with
    | .error e => .error e
    | .ok _ =>
      if s.traceFile ≠ some tf then
        let v := totalCompute s.column (heap tf)
        .ok (v, ⟨s.column, some v, some tf⟩, true)
      else
        .ok (s.value.getD 0, s, false)

/-- `TotalTimeSpent.__init__`: column `t (s)`. -/
def totalTimeSpentInit : TotalState := totalInit "t (s)"

/-- `TotalDistanceTraveled.__init__`: column `pos (m)`. -/
def totalDistanceTraveledInit : TotalState := totalInit "pos (m)"

/-- `TotalTimeSpent.get`: `self.get_si(trace_file) / 3600.0`. -/
def totalTimeSpentGet (heap : Nat → DataFrame) (s : TotalState) (tf : Nat) :
    Except String (ℚ × TotalState × Bool) :=
  (totalGetSi heap s tf).map fun r => (r.1 / 3600, r.2.1, r.2.2)

/-- `TotalDistanceTraveled.get`: `self.get_si(trace_file) / 1000.0`. -/
def totalDistanceTraveledGet (heap : Nat → DataFrame) (s : TotalState) (tf : Nat) :
    Except String (ℚ × TotalState × Bool) :=
  (totalGetSi heap s tf).map fun r => (r.1 / 1000, r.2.1, r.2.2)

/-- The cache invariant of a `Total`-family statistic: whenever a trace-file
reference is cached, the cached value is the computation on its data.  It
holds at construction (both fields `None`) and is preserved by `get_si`. -/
def TotalInv (heap : Nat → DataFrame) (s : TotalState) : Prop :=
  ∀ r, s.traceFile = some r → s.value = some (totalCompute s.column (heap r))

/-! ### Filters (`filter.py`) -/

/-- The fields of a `Range` filter: a column name, both bounds, and the two
inclusivity flags (Python defaults: `min_inclusive=True`,
`max_inclusive=False`; the model always passes them explicitly). -/
structure Range where
  column : String
  min : ℚ
  max : ℚ
  minInclusive : Bool
  maxInclusive : Bool
deriving DecidableEq

/-- `Range.__init__`: raises `ValueError` when the minimum is larger than
the maximum, otherwise stores the fields. -/
def rangeInit (column : String) (minimum maximum : ℚ)
    (minInclusive maxInclusive : Bool) : Except String Range :=
  if minimum > maximum then .error "Minimum is larger than maximum in range filter."
  else .ok ⟨column, minimum, maximum, minInclusive, maxInclusive⟩

/-- `Range.apply`: keeps the rows whose column value passes the lower bound
(`≥` or `>` following `_min_inclusive`) and the upper bound (`≤` or `<`
following `_max_inclusive`); `data_frame[min_bool & max_bool]` keeps the
selected rows in their original order. -/
def Range.apply (f : Range) (df : DataFrame) : DataFrame where
  columns := df.columns
  rows := df.rows.filter fun row =>
    (if f.minInclusive then decide (row f.column ≥ f.min) else decide (row f.column > f.min)) &&
    (if f.maxInclusive then decide (row f.column ≤ f.max) else decide (row f.column < f.max))

/-- The fields of an `Area` filter: the precomputed scalar area and the two
inclusive `Range` filters on `t (s)` and `pos (m)`. -/
structure Area where
  area : ℚ
  tFilter : Range
  posFilter : Range
deriving DecidableEq

/-- `Area.__init__`: computes `(max_t - min_t) * (max_pos - min_pos)`, then
constructs `Range('t (s)', min_t, max_t, True, True)` and
`Range('pos (m)', min_pos, max_pos, True, True)`; either `Range` constructor
may raise. -/
def areaInit (minT maxT minPos maxPos : ℚ) : Except String Area :=
  match rangeInit "t (s)" minT maxT true true with
  | .error e => .error e
  | .ok tF =>
    match rangeInit "pos (m)" minPos maxPos true true with
    | .error e => .error e
    | .ok pF => .ok ⟨(maxT - minT) * (maxPos - minPos), tF, pF⟩

/-- `Area.get_area`: returns the precomputed area. -/
def Area.get_area (a : Area) : ℚ := a.area

/-! ### Derived statistics (`statistic.py`) -/

/-- The injected `Total` instances of a `MeanSpeed` statistic. -/
structure MeanSpeedState where
  totalTimeSpent : TotalState
  totalDistanceTraveled : TotalState
deriving DecidableEq

/-- `MeanSpeed.get_si`: the injected `TotalDistanceTraveled`'s SI value
divided by the injected `TotalTimeSpent`'s SI value (evaluated in that
order, threading each instance's cache). -/
def meanSpeedGetSi (heap : Nat → DataFrame) (s : MeanSpeedState) (tf : Nat) :
    Except String (ℚ × MeanSpeedState) :=
  match totalGetSi heap s.totalDistanceTraveled tf with
  | .error e => .error e
  | .ok (d, sd, _) =>
    match totalGetSi heap s.totalTimeSpent tf with
    | .error e => .error e
    | .ok (t, st, _) => .ok (d / t, ⟨st, sd⟩)

/-- `MeanSpeed.get`: `self.get_si(trace_file) * 3.6`. -/
def meanSpeedGet (heap : Nat → DataFrame) (s : MeanSpeedState) (tf : Nat) :
    Except String (ℚ × MeanSpeedState) :=
  (meanSpeedGetSi heap s tf).map fun r => (r.1 * 3.6, r.2)

/-- `PerArea.get_si` as instantiated by `Density` and `Flow`, whose injected
statistic is a `Total`-family instance: the injected statistic's SI value
divided by `self._area.get_area()`. -/
def perAreaGetSi (heap : Nat → DataFrame) (s : TotalState) (area : Area) (tf : Nat) :
    Except String (ℚ × TotalState × Bool) :=
  (totalGetSi heap s tf).map fun r => (r.1 / area.get_area, r.2.1, r.2.2)

/-- `Density.get_si` (inherited from `PerArea`, statistic = the injected
`TotalTimeSpent`). -/
def densityGetSi (heap : Nat → DataFrame) (s : TotalState) (area : Area) (tf : Nat) :
    Except String (ℚ × TotalState × Bool) :=
  perAreaGetSi heap s area tf

/-- `Density.get`: `self.get_si(trace_file) * 1000.0`. -/
def densityGet (heap : Nat → DataFrame) (s : TotalState) (area : Area) (tf : Nat) :
    Except String (ℚ × TotalState × Bool) :=
  (densityGetSi heap s area tf).map fun r => (r.1 * 1000, r.2.1, r.2.2)

/-- `Flow.get_si` (inherited from `PerArea`, statistic = the injected
`TotalDistanceTraveled`). -/
def flowGetSi (heap : Nat → DataFrame) (s : TotalState) (area : Area) (tf : Nat) :
    Except String (ℚ × TotalState × Bool) :=
  perAreaGetSi heap s area tf

/-- `Flow.get`: `self.get_si(trace_file) * 3600.0`. -/
def flowGet (heap : Nat → DataFrame) (s : TotalState) (area : Area) (tf : Nat) :
    Except String (ℚ × TotalState × Bool) :=
  (flowGetSi heap s area tf).map fun r => (r.1 * 3600, r.2.1, r.2.2)

/-- `NumberOfLaneChanges.get`: checks the `fromln` and `tolane` columns and
returns the number of rows. -/
def numberOfLaneChangesGet (df : DataFrame) : Except String ℚ :=
  match checkColumn "fromln" df with
  | .error e => .error e
  | .ok _ =>
    match checkColumn "tolane" df with
    | .error e => .error e
    | .ok _ => .ok (df.rows.length : ℚ)

/-- `NumberOfLaneChanges.get_si`: `return self.get(trace_file)`. -/
def numberOfLaneChangesGetSi (df : DataFrame) : Except String ℚ :=
  numberOfLaneChangesGet df

/-! ### Table (`table.py`) -/

/-- The interface of a statistic as the `Table` constructor consumes it:
`get_label()`, `get(trace_file)` and `get_unit()`. -/
structure Statistic where
  label : String
  unit : String
  get : DataFrame → Except String ℚ

/-- The presentation structure built by `Table.__init__`: the label, value
and unit columns. -/
structure Table where
  labels : List String
  values : List ℚ
  units : List String

/-- Model of CPython `is` applied to two separately produced non-negative
`int` objects (such as two `len(...)` results): the objects are identical
exactly when the values are equal and small enough to be interned (CPython
caches the integers -5 to 256; larger equal values live in distinct
objects). -/
def intIs (a b : Nat) : Bool := a == b && decide (a ≤ 256)

/-- `Table.__init__`: compares `len(statistics) is not len(trace_files)`
(note: `is not`, i.e. object identity, modelled by `intIs`), raising
`ValueError` on a mismatch, then collects `(get_label(), get(trace_file),
get_unit())` for each pair in order. -/
def tableInit (statistics : List Statistic) (traceFiles : List DataFrame) :
    Except String Table :=
  if intIs statistics.length traceFiles.length then
    ((statistics.zip traceFiles).mapM fun p : Statistic × DataFrame =>
        (p.1.get p.2).map fun v => (p.1.label, v, p.1.unit)).map
      fun triples =>
        ⟨triples.map fun t => t.1, triples.map fun t => t.2.1, triples.map fun t => t.2.2⟩
  else .error "Statistics list and trace file list are not of equal length."

/-! ### Parsing and post-parse cleanup (`trace_file.py`) -/

/-- A raw cell of the input file, classified by what it parses as:
`intStr n` parses both as `int` and as `float`, `floatStr q` parses as
`float` but not as `int`, `badStr` parses as neither, and `absent` is a
missing cell (parses as neither). -/
inductive Cell where
  | intStr (n : Int)
  | floatStr (q : ℚ)
  | badStr
  | absent
deriving DecidableEq

/-- A cell value after coercion: a number, pandas `NaN`, or a raw
(unconverted) cell for columns without a registered converter. -/
inductive PValue where
  | nan
  | num (q : ℚ)
  | raw (c : Cell)
deriving DecidableEq

/-- `_float_converter`: `float(value)`, or `NaN` when parsing fails. -/
def floatConverter : Cell → PValue
  | .intStr n => .num (n : ℚ)
  | .floatStr q => .num q
  | .badStr => .nan
  | .absent => .nan

/-- `_int_converter`: `int(value)`, or `-1` when parsing fails. -/
def intConverter : Cell → PValue
  | .intStr n => .num (n : ℚ)
  | .floatStr _ => .num (-1)
  | .badStr => .num (-1)
  | .absent => .num (-1)

/-- The `_converters` dictionary: column name to converter function. -/
def convertersList : List (String × (Cell → PValue)) :=
  [("t (s)", floatConverter), ("fromln", intConverter), ("tolane", intConverter),
   ("from a", floatConverter), ("to a", floatConverter), ("pos (m)", floatConverter),
   ("v (m/s)", floatConverter), ("id", intConverter), ("lane", intConverter),
   ("tt (s)", floatConverter), ("dt (s)", floatConverter)]

/-- Look up the converter registered for a column, if any. -/
def lookupConverter (column : String) : Option (Cell → PValue) :=
  (convertersList.find? fun p => p.1 == column).map fun p => p.2

/-- Coercion of one cell by `pandas.read_csv` with the `_converters`
mapping: a registered converter is applied; a column without one keeps the
raw cell, except that a missing cell becomes pandas `NaN`. -/
def readCell (column : String) (cell : Cell) : PValue :=
  match lookupConverter column with
  | some conv => conv cell
  | none =>
    match cell with
    | .absent => .nan
    | c => .raw c

/-- The dataset right after `pd.read_csv` with the converters: each row's
cells coerced column-wise following the header. -/
def parsedRows (header : List String) (rows : List (List Cell)) : List (List PValue) :=
  rows.map fun row => (header.zip row).map fun p => readCell p.1 p.2

/-- `TraceFile.__init__` on a data file (rows already split along the
detected delimiter): coerce the cells, then `self._data_frame.dropna()`
drops every row containing `NaN`. -/
def traceFileInit (header : List String) (rows : List (List Cell)) : List (List PValue) :=
  (parsedRows header rows).filter fun row => decide (PValue.nan ∉ row)

/-! ### Concrete data used by the witnesses -/

/-- A vehicle-samples row with the given time, position and vehicle id. -/
def mkRow (t pos vid : ℚ) : String → ℚ :=
  fun c => if c = "t (s)" then t else if c = "pos (m)" then pos else if c = "id" then vid else 0

/-- A small vehicle-samples dataset with two vehicles: id 1 sampled at
times 0..3 and positions 0..30, id 2 at times 1..2 and positions 5..15. -/
def dfA : DataFrame where
  columns := ["t (s)", "pos (m)", "id"]
  rows := [mkRow 0 0 1, mkRow 1 10 1, mkRow 2 20 1, mkRow 3 30 1, mkRow 1 5 2, mkRow 2 15 2]

/-- A vehicle-samples dataset with the usual columns and no rows. -/
def dfEmpty : DataFrame where
  columns := ["t (s)", "pos (m)", "id"]
  rows := []

/-- A lane-changes dataset with one row. -/
def dfLC : DataFrame where
  columns := ["fromln", "tolane"]
  rows := [fun _ => 0]

/-! ### Helper lemmas about `pdUnique`, `seriesMax`/`seriesMin` and the fold -/

theorem mem_pdUniqueAux {a : ℚ} :
    ∀ (l seen : List ℚ), a ∈ pdUniqueAux seen l ↔ a ∈ l ∧ a ∉ seen := by
  intro l
  induction l with
  | nil => intro seen; simp [pdUniqueAux]
  | cons x xs ih =>
    intro seen
    by_cases hx : x ∈ seen
    · rcases eq_or_ne a x with rfl | hax
      · simp [pdUniqueAux, hx, ih, hx]
      · simp [pdUniqueAux, hx, ih, hax]
    · rcases eq_or_ne a x with rfl | hax
      · simp [pdUniqueAux, hx, ih]
      · simp [pdUniqueAux, hx, ih, hax]

theorem mem_pdUnique {a : ℚ} {l : List ℚ} : a ∈ pdUnique l ↔ a ∈ l := by
  simp [pdUnique, mem_pdUniqueAux]

theorem pdUniqueAux_nodup : ∀ (l seen : List ℚ), (pdUniqueAux seen l).Nodup := by
  intro l
  induction l with
  | nil => intro seen; simp [pdUniqueAux]
  | cons x xs ih =>
    intro seen
    by_cases hx : x ∈ seen
    · simpa [pdUniqueAux, hx] using ih seen
    · rw [pdUniqueAux, if_neg hx]
      refine List.nodup_cons.mpr ⟨fun hmem => ?_, ih (x :: seen)⟩
      have := (mem_pdUniqueAux xs (x :: seen)).mp hmem
      exact this.2 (List.mem_cons_self x seen)

theorem pdUnique_nodup (l : List ℚ) : (pdUnique l).Nodup := pdUniqueAux_nodup l []

theorem pdUnique_toFinset (l : List ℚ) : (pdUnique l).toFinset = l.toFinset := by
  ext a
  simp [List.mem_toFinset, mem_pdUnique]

theorem foldl_add_sub (f g : ℚ → ℚ) :
    ∀ (l : List ℚ) (init : ℚ),
      l.foldl (fun v x => v + f x - g x) init = init + (l.map fun x => f x - g x).sum := by
  intro l
  induction l with
  | nil => intro init; simp
  | cons x xs ih =>
    intro init
    simp only [List.foldl_cons, List.map_cons, List.sum_cons, ih]
    ring

theorem le_foldl_max : ∀ (l : List ℚ) (a : ℚ), a ≤ l.foldl max a := by
  intro l
  induction l with
  | nil => intro a; simp
  | cons x xs ih =>
    intro a
    exact le_trans (le_max_left a x) (ih (max a x))

theorem mem_le_foldl_max : ∀ (l : List ℚ) (a y : ℚ), y ∈ l → y ≤ l.foldl max a := by
  intro l
  induction l with
  | nil => intro a y hy; cases hy
  | cons x xs ih =>
    intro a y hy
    rcases List.mem_cons.mp hy with rfl | hy
    · exact le_trans (le_max_right a y) (le_foldl_max xs (max a y))
    · exact ih (max a x) y hy

theorem foldl_max_mem : ∀ (l : List ℚ) (a : ℚ), l.foldl max a = a ∨ l.foldl max a ∈ l := by
  intro l
  induction l with
  | nil => intro a; exact Or.inl rfl
  | cons x xs ih =>
    intro a
    rw [List.foldl_cons]
    rcases ih (max a x) with h | h
    · rcases max_choice a x with hm | hm
      · exact Or.inl (by rw [h, hm])
      · exact Or.inr (by rw [h, hm]; exact List.mem_cons_self x xs)
    · exact Or.inr (List.mem_cons_of_mem x h)

theorem foldl_min_le : ∀ (l : List ℚ) (a : ℚ), l.foldl min a ≤ a := by
  intro l
  induction l with
  | nil => intro a; simp
  | cons x xs ih =>
    intro a
    exact le_trans (ih (min a x)) (min_le_left a x)

theorem foldl_min_le_mem : ∀ (l : List ℚ) (a y : ℚ), y ∈ l → l.foldl min a ≤ y := by
  intro l
  induction l with
  | nil => intro a y hy; cases hy
  | cons x xs ih =>
    intro a y hy
    rcases List.mem_cons.mp hy with rfl | hy
    · exact le_trans (foldl_min_le xs (min a y)) (min_le_right a y)
    · exact ih (min a x) y hy

theorem foldl_min_mem : ∀ (l : List ℚ) (a : ℚ), l.foldl min a = a ∨ l.foldl min a ∈ l := by
  intro l
  induction l with
  | nil => intro a; exact Or.inl rfl
  | cons x xs ih =>
    intro a
    rw [List.foldl_cons]
    rcases ih (min a x) with h | h
    · rcases min_choice a x with hm | hm
      · exact Or.inl (by rw [h, hm])
      · exact Or.inr (by rw [h, hm]; exact List.mem_cons_self x xs)
    · exact Or.inr (List.mem_cons_of_mem x h)

theorem seriesMax_spec {l : List ℚ} (h : l ≠ []) :
    seriesMax l ∈ l ∧ ∀ y ∈ l, y ≤ seriesMax l := by
  match l, h with
  | x :: xs, _ =>
    constructor
    · rcases foldl_max_mem xs x with hm | hm
      · rw [seriesMax, hm]; exact List.mem_cons_self x xs
      · exact List.mem_cons_of_mem x (by rw [seriesMax]; exact hm)
    · intro y hy
      rcases List.mem_cons.mp hy with rfl | hy
      · exact le_foldl_max xs y
      · exact mem_le_foldl_max xs x y hy

theorem seriesMin_spec {l : List ℚ} (h : l ≠ []) :
    seriesMin l ∈ l ∧ ∀ y ∈ l, seriesMin l ≤ y := by
  match l, h with
  | x :: xs, _ =>
    constructor
    · rcases foldl_min_mem xs x with hm | hm
      · rw [seriesMin, hm]; exact List.mem_cons_self x xs
      · exact List.mem_cons_of_mem x (by rw [seriesMin]; exact hm)
    · intro y hy
      rcases List.mem_cons.mp hy with rfl | hy
      · exact foldl_min_le xs y
      · exact foldl_min_le_mem xs x y hy

theorem totalCompute_eq_sum (c : String) (df : DataFrame) :
    totalCompute c df =
      ∑ vid ∈ (df.rows.map fun r => r "id").toFinset,
        (seriesMax ((idRows df vid).map fun r => r c)
          - seriesMin ((idRows df vid).map fun r => r c)) := by
  have h := foldl_add_sub
    (fun vid => seriesMax ((idRows df vid).map fun r => r c))
    (fun vid => seriesMin ((idRows df vid).map fun r => r c))
    (pdUnique (df.rows.map fun r => r "id")) 0
  rw [totalCompute, h, zero_add,
    ← List.sum_toFinset _ (pdUnique_nodup (df.rows.map fun r => r "id")),
    pdUnique_toFinset]

theorem idRows_ne_nil {df : DataFrame} {vid : ℚ}
    (h : vid ∈ (df.rows.map fun r => r "id").toFinset) : idRows df vid ≠ [] := by
  rw [List.mem_toFinset, List.mem_map] at h
  obtain ⟨r, hr, hrid⟩ := h
  intro hnil
  have : r ∈ idRows df vid := by
    rw [idRows, List.mem_filter]
    exact ⟨hr, by simp [hrid]⟩
  rw [hnil] at this
  cases this

theorem totalGetSi_ok (heap : Nat → DataFrame) (s : TotalState) (tf : Nat)
    (hInv : TotalInv heap s)
    (hc : s.column ∈ (heap tf).columns) (hid : "id" ∈ (heap tf).columns) :
    ∃ s' b, totalGetSi heap s tf = .ok (totalCompute s.column (heap tf), s', b) ∧
      s'.column = s.column ∧ s'.traceFile = some tf ∧
      s'.value = some (totalCompute s.column (heap tf)) := by
  rw [totalGetSi, checkColumn, if_pos hc]
  simp only [checkColumn, if_pos hid]
  by_cases h : s.traceFile = some tf
  · have hv := hInv tf h
    refine ⟨s, false, ?_, rfl, h, hv⟩
    rw [if_neg (by simp [h]), hv]
    rfl
  · exact ⟨⟨s.column, some (totalCompute s.column (heap tf)), some tf⟩, true,
      by rw [if_pos h], rfl, rfl, rfl⟩

theorem totalGetSi_error_left (heap : Nat → DataFrame) (s : TotalState) (tf : Nat)
    (hc : s.column ∉ (heap tf).columns) :
    totalGetSi heap s tf = .error (missingColumnMsg s.column) := by
  rw [totalGetSi, checkColumn, if_neg hc]

theorem totalGetSi_error_id (heap : Nat → DataFrame) (s : TotalState) (tf : Nat)
    (hc : s.column ∈ (heap tf).columns) (hid : "id" ∉ (heap tf).columns) :
    totalGetSi heap s tf = .error (missingColumnMsg "id") := by
  rw [totalGetSi, checkColumn, if_pos hc]
  simp only [checkColumn, if_neg hid]

theorem totalGetSi_cached (heap : Nat → DataFrame) (s : TotalState) (tf : Nat)
    (hc : s.column ∈ (heap tf).columns) (hid : "id" ∈ (heap tf).columns)
    (htf : s.traceFile = some tf) (v : ℚ) (hval : s.value = some v) :
    totalGetSi heap s tf = .ok (v, s, false) := by
  rw [totalGetSi, checkColumn, if_pos hc]
  simp only [checkColumn, if_pos hid]
  rw [if_neg (by simp [htf]), hval]
  rfl

theorem totalGetSi_recompute (heap : Nat → DataFrame) (s : TotalState) (tf : Nat)
    (hc : s.column ∈ (heap tf).columns) (hid : "id" ∈ (heap tf).columns)
    (htf : s.traceFile ≠ some tf) :
    totalGetSi heap s tf = .ok (totalCompute s.column (heap tf),
      ⟨s.column, some (totalCompute s.column (heap tf)), some tf⟩, true) := by
  rw [totalGetSi, checkColumn, if_pos hc]
  simp only [checkColumn, if_pos hid]
  rw [if_pos htf]

theorem totalGetSi_ok_elim (heap : Nat → DataFrame) (s : TotalState) (tf : Nat)
    (v : ℚ) (s₁ : TotalState) (b : Bool)
    (hInv : TotalInv heap s)
    (h : totalGetSi heap s tf = .ok (v, s₁, b)) :
    v = totalCompute s.column (heap tf) ∧ s₁.column = s.column ∧
    s₁.traceFile = some tf ∧ s₁.value = some v ∧
    s.column ∈ (heap tf).columns ∧ "id" ∈ (heap tf).columns := by
  by_cases hc : s.column ∈ (heap tf).columns
  · by_cases hid : "id" ∈ (heap tf).columns
    · obtain ⟨s', b', heq, hcol, htf, hval⟩ := totalGetSi_ok heap s tf hInv hc hid
      rw [heq] at h
      simp only [Except.ok.injEq, Prod.mk.injEq] at h
      obtain ⟨hv, hs, -⟩ := h
      subst hs
      exact ⟨hv.symm, hcol, htf, hv ▸ hval, hc, hid⟩
    · rw [totalGetSi_error_id heap s tf hc hid] at h
      cases h
  · rw [totalGetSi_error_left heap s tf hc] at h
    cases h

/-! ### Claim theorems -/

/-- C8: `Range` construction raises `InvalidArgument` exactly when the
minimum is larger than the maximum: for `a > b` it raises, and for `a ≤ b`
it succeeds, storing the column, both bounds and both inclusivity flags. -/
theorem range_init_invalid_iff (c : String) (a b : ℚ) (mi mx : Bool) :
    (a > b → rangeInit c a b mi mx = .error "Minimum is larger than maximum in range filter.")
    ∧ (a ≤ b → rangeInit c a b mi mx = .ok ⟨c, a, b, mi, mx⟩) :=
  ⟨fun h => by rw [rangeInit, if_pos h],
   fun h => by rw [rangeInit, if_neg (not_lt.mpr h)]⟩

theorem range_init_invalid_iff_witness :
    (rangeInit "t (s)" 3 2 true false =
      .error "Minimum is larger than maximum in range filter.")
    ∧ rangeInit "t (s)" 2 3 true false = .ok ⟨"t (s)", 2, 3, true, false⟩ :=
  ⟨(range_init_invalid_iff "t (s)" 3 2 true false).1 (by norm_num),
   (range_init_invalid_iff "t (s)" 2 3 true false).2 (by norm_num)⟩

/-- C5 (counterexample): constructing an `Area` with an inverted time axis
does not succeed: the internal `Range('t (s)', 1, 0, True, True)`
constructor raises because its minimum is larger than its maximum. -/
theorem area_init_inverted_raises :
    areaInit 1 0 0 1 = .error "Minimum is larger than maximum in range filter." := by
  rw [areaInit, rangeInit, if_pos (by norm_num : (1 : ℚ) > 0)]

/-- C5 (amended): `Area.__init__` performs no validation of its own, but the
two inclusive `Range` filters it constructs do: construction succeeds
exactly when `min_t ≤ max_t` and `min_pos ≤ max_pos`, in which case
`get_area` returns `(max_t - min_t) * (max_pos - min_pos)`; an inverted box
on either axis raises the internal `Range` constructor's error. -/
theorem area_init_validated_by_ranges (minT maxT minPos maxPos : ℚ) :
    (minT ≤ maxT → minPos ≤ maxPos →
      areaInit minT maxT minPos maxPos =
        .ok ⟨(maxT - minT) * (maxPos - minPos),
          ⟨"t (s)", minT, maxT, true, true⟩, ⟨"pos (m)", minPos, maxPos, true, true⟩⟩
      ∧ ∀ ar, areaInit minT maxT minPos maxPos = .ok ar →
          ar.get_area = (maxT - minT) * (maxPos - minPos))
    ∧ (maxT < minT ∨ maxPos < minPos →
        areaInit minT maxT minPos maxPos =
          .error "Minimum is larger than maximum in range filter.") := by
  constructor
  · intro ht hp
    have h1 : rangeInit "t (s)" minT maxT true true = .ok ⟨"t (s)", minT, maxT, true, true⟩ := by
      rw [rangeInit, if_neg (not_lt.mpr ht)]
    have h2 : rangeInit "pos (m)" minPos maxPos true true =
        .ok ⟨"pos (m)", minPos, maxPos, true, true⟩ := by
      rw [rangeInit, if_neg (not_lt.mpr hp)]
    have hok : areaInit minT maxT minPos maxPos =
        .ok ⟨(maxT - minT) * (maxPos - minPos),
          ⟨"t (s)", minT, maxT, true, true⟩, ⟨"pos (m)", minPos, maxPos, true, true⟩⟩ := by
      rw [areaInit, h1, h2]
    refine ⟨hok, fun ar har => ?_⟩
    rw [hok] at har
    cases har
    rfl
  · intro h
    by_cases ht : maxT < minT
    · rw [areaInit, rangeInit, if_pos ht]
    · have hp : maxPos < minPos := h.resolve_left ht
      rw [areaInit, rangeInit, if_neg ht, rangeInit, if_pos hp]

theorem area_init_validated_by_ranges_witness :
    ((0 : ℚ) ≤ 10 ∧ (0 : ℚ) ≤ 100)
    ∧ (areaInit 0 10 0 100 =
        .ok ⟨1000, ⟨"t (s)", 0, 10, true, true⟩, ⟨"pos (m)", 0, 100, true, true⟩⟩
      ∧ ∀ ar, areaInit 0 10 0 100 = .ok ar → ar.get_area = (10 - 0) * (100 - 0)) := by
  have h := (area_init_validated_by_ranges 0 10 0 100).1 (by norm_num) (by norm_num)
  exact ⟨⟨by norm_num, by norm_num⟩, by norm_num at h ⊢; exact h⟩

set_option maxRecDepth 8000 in
/-- C9: the `Table` constructor compares the two lengths with `is not`,
i.e. CPython object identity.  Two equal lengths of 257 produce distinct
`int` objects (only -5..256 are interned), so construction raises the
"not of equal length" error even though the lists have equal length;
with a short equal length construction succeeds and snapshots the
label/value/unit triples in order. -/
theorem table_init_compares_length_identity :
    tableInit (List.replicate 257 ⟨"Flow", "/h", fun _ => .ok 0⟩)
        (List.replicate 257 ⟨[], []⟩) =
      .error "Statistics list and trace file list are not of equal length."
    ∧ tableInit [⟨"Flow", "/h", fun _ => .ok 0⟩, ⟨"Density", "/km", fun _ => .ok 1⟩]
        [⟨[], []⟩, ⟨[], []⟩] =
      .ok ⟨["Flow", "Density"], [0, 1], ["/h", "/km"]⟩ :=
  ⟨rfl, rfl⟩

/-- C3 (counterexample): a row whose `id` cell fails integer conversion is
kept by `TraceFile.__init__`: the `-1` sentinel returned by
`_int_converter` is not `NaN`, so `dropna` does not remove the row, and the
constructed dataset contains `-1`. -/
theorem trace_file_keeps_int_sentinel_row :
    traceFileInit ["id", "t (s)"] [[Cell.badStr, Cell.intStr 0]] =
      [[PValue.num (-1), PValue.num 0]]
    ∧ intConverter Cell.badStr = PValue.num (-1)
    ∧ readCell "id" Cell.badStr = PValue.num (-1) := by
  refine ⟨?_, rfl, rfl⟩
  rfl

/-- C3 (amended): after construction, the dataset is exactly the coerced
rows from which every row containing `NaN` (a failed float conversion, or a
missing cell) has been dropped; rows whose only sentinel is the integer
`-1` are retained. -/
theorem trace_file_drops_nan_rows (header : List String) (rows : List (List Cell)) :
    (∀ row ∈ traceFileInit header rows, PValue.nan ∉ row)
    ∧ (∀ row ∈ parsedRows header rows,
        PValue.nan ∉ row → row ∈ traceFileInit header rows)
    ∧ (∀ row ∈ traceFileInit header rows, row ∈ parsedRows header rows) := by
  refine ⟨fun row hrow => ?_, fun row h hnot => ?_, fun row hrow => ?_⟩
  · have := (List.mem_filter.mp hrow).2
    simpa using this
  · exact List.mem_filter.mpr ⟨h, by simpa using hnot⟩
  · exact (List.mem_filter.mp hrow).1

theorem trace_file_drops_nan_rows_witness :
    ((∀ row ∈ traceFileInit ["id", "t (s)"]
        [[Cell.badStr, Cell.intStr 0], [Cell.intStr 5, Cell.badStr]],
      PValue.nan ∉ row)
    ∧ (∀ row ∈ parsedRows ["id", "t (s)"]
        [[Cell.badStr, Cell.intStr 0], [Cell.intStr 5, Cell.badStr]],
        PValue.nan ∉ row →
          row ∈ traceFileInit ["id", "t (s)"]
            [[Cell.badStr, Cell.intStr 0], [Cell.intStr 5, Cell.badStr]])
    ∧ (∀ row ∈ traceFileInit ["id", "t (s)"]
        [[Cell.badStr, Cell.intStr 0], [Cell.intStr 5, Cell.badStr]],
        row ∈ parsedRows ["id", "t (s)"]
          [[Cell.badStr, Cell.intStr 0], [Cell.intStr 5, Cell.badStr]])) :=
  trace_file_drops_nan_rows ["id", "t (s)"]
    [[Cell.badStr, Cell.intStr 0], [Cell.intStr 5, Cell.badStr]]

/-- C4: for a valid `Range(column, a, b, incl_min, incl_max)` with `a ≤ b`,
`apply` keeps each row exactly when its column value passes the configured
inequality at each bound (`≥`/`>` at the minimum following `incl_min`,
`≤`/`<` at the maximum following `incl_max`), and the kept rows are a
subsequence of the original rows (original relative order). -/
theorem range_apply_bounds (c : String) (a b : ℚ) (mi mx : Bool) (df : DataFrame) (r : Range)
    (hab : a ≤ b) (_hcol : c ∈ df.columns)
    (hr : rangeInit c a b mi mx = .ok r) :
    (r.apply df).rows.Sublist df.rows
    ∧ ∀ row, row ∈ (r.apply df).rows ↔
        row ∈ df.rows
        ∧ (if mi = true then a ≤ row c else a < row c)
        ∧ (if mx = true then row c ≤ b else row c < b) := by
  have hre : r = ⟨c, a, b, mi, mx⟩ := by
    rw [rangeInit, if_neg (not_lt.mpr hab)] at hr
    cases hr
    rfl
  subst hre
  refine ⟨List.filter_sublist _, fun row => ?_⟩
  cases mi <;> cases mx <;>
    simp [Range.apply, List.mem_filter, ge_iff_le]

theorem range_apply_bounds_witness :
    ((1 : ℚ) ≤ 2 ∧ "t (s)" ∈ dfA.columns
      ∧ rangeInit "t (s)" 1 2 true false = .ok ⟨"t (s)", 1, 2, true, false⟩)
    ∧ ((Range.apply ⟨"t (s)", 1, 2, true, false⟩ dfA).rows.Sublist dfA.rows
      ∧ ∀ row, row ∈ (Range.apply ⟨"t (s)", 1, 2, true, false⟩ dfA).rows ↔
          row ∈ dfA.rows
          ∧ (if (true : Bool) = true then (1 : ℚ) ≤ row "t (s)" else (1 : ℚ) < row "t (s)")
          ∧ (if (false : Bool) = true then row "t (s)" ≤ 2 else row "t (s)" < 2)) :=
  ⟨⟨by norm_num, by simp [dfA], by decide⟩,
   range_apply_bounds "t (s)" 1 2 true false dfA ⟨"t (s)", 1, 2, true, false⟩
     (by norm_num) (by simp [dfA]) (by decide)⟩

/-- C10: on a trace file whose dataset has the statistic's column and the
`id` column but no rows, a `Total`-family `get_si` returns exactly `0.0`:
the set of distinct ids is empty and the summation loop never runs. -/
theorem total_get_si_empty_returns_zero (heap : Nat → DataFrame) (s : TotalState) (tf : Nat)
    (hInv : TotalInv heap s)
    (hc : s.column ∈ (heap tf).columns) (hid : "id" ∈ (heap tf).columns)
    (hrows : (heap tf).rows = []) :
    ∃ s' b, totalGetSi heap s tf = .ok (0, s', b) := by
  obtain ⟨s', b, heq, -, -, -⟩ := totalGetSi_ok heap s tf hInv hc hid
  refine ⟨s', b, ?_⟩
  rw [heq]
  have h0 : totalCompute s.column (heap tf) = 0 := by
    rw [totalCompute, hrows]
    rfl
  rw [h0]

theorem total_get_si_empty_returns_zero_witness :
    (TotalInv (fun _ => dfEmpty) totalTimeSpentInit
      ∧ "t (s)" ∈ dfEmpty.columns ∧ "id" ∈ dfEmpty.columns ∧ dfEmpty.rows = [])
    ∧ ∃ s' b, totalGetSi (fun _ => dfEmpty) totalTimeSpentInit 0 = .ok (0, s', b) := by
  have hInv : TotalInv (fun _ => dfEmpty) totalTimeSpentInit := fun _ h => nomatch h
  have hc : "t (s)" ∈ dfEmpty.columns := by simp [dfEmpty]
  have hid : "id" ∈ dfEmpty.columns := by simp [dfEmpty]
  have hmain := total_get_si_empty_returns_zero (fun _ => dfEmpty) totalTimeSpentInit 0 hInv
    (by simpa [totalTimeSpentInit, totalInit] using hc) hid rfl
  exact ⟨⟨hInv, hc, hid, rfl⟩, hmain⟩

/-- C1: when the dataset has both the statistic's column `C` and the `id`
column, a `Total`-family `get_si` returns the sum, over the distinct
vehicle ids of the `id` column, of the maximum of `C` over that id's rows
minus the minimum of `C` over that id's rows (where maximum and minimum
are characterized as a member of that id's column values bounding all of
them); when `C` is absent it raises `MissingColumn` naming `C`, and when
only `id` is absent it raises `MissingColumn` naming `id`. -/
theorem total_get_si_range_width_sum (heap : Nat → DataFrame) (s : TotalState) (tf : Nat)
    (hInv : TotalInv heap s) :
    (s.column ∈ (heap tf).columns → "id" ∈ (heap tf).columns →
      ∃ s' b, totalGetSi heap s tf =
          .ok (∑ vid ∈ ((heap tf).rows.map fun r => r "id").toFinset,
            (seriesMax ((idRows (heap tf) vid).map fun r => r s.column)
              - seriesMin ((idRows (heap tf) vid).map fun r => r s.column)), s', b)
        ∧ ∀ vid ∈ ((heap tf).rows.map fun r => r "id").toFinset,
            seriesMax ((idRows (heap tf) vid).map fun r => r s.column)
                ∈ ((idRows (heap tf) vid).map fun r => r s.column)
            ∧ (∀ y ∈ ((idRows (heap tf) vid).map fun r => r s.column),
                y ≤ seriesMax ((idRows (heap tf) vid).map fun r => r s.column))
            ∧ seriesMin ((idRows (heap tf) vid).map fun r => r s.column)
                ∈ ((idRows (heap tf) vid).map fun r => r s.column)
            ∧ ∀ y ∈ ((idRows (heap tf) vid).map fun r => r s.column),
                seriesMin ((idRows (heap tf) vid).map fun r => r s.column) ≤ y)
    ∧ (s.column ∉ (heap tf).columns →
        totalGetSi heap s tf = .error (missingColumnMsg s.column))
    ∧ (s.column ∈ (heap tf).columns → "id" ∉ (heap tf).columns →
        totalGetSi heap s tf = .error (missingColumnMsg "id")) := by
  refine ⟨fun hc hid => ?_, totalGetSi_error_left heap s tf, totalGetSi_error_id heap s tf⟩
  obtain ⟨s', b, heq, -, -, -⟩ := totalGetSi_ok heap s tf hInv hc hid
  refine ⟨s', b, ?_, fun vid hvid => ?_⟩
  · rw [heq, totalCompute_eq_sum]
  · have hne : (idRows (heap tf) vid).map (fun r => r s.column) ≠ [] := by
      intro h0
      exact idRows_ne_nil hvid (List.map_eq_nil_iff.mp h0)
    obtain ⟨hmx, hmxle⟩ := seriesMax_spec hne
    obtain ⟨hmn, hmnle⟩ := seriesMin_spec hne
    exact ⟨hmx, hmxle, hmn, hmnle⟩

theorem total_get_si_range_width_sum_witness :
    TotalInv (fun _ => dfA) totalTimeSpentInit
    ∧ ((totalTimeSpentInit.column ∈ dfA.columns → "id" ∈ dfA.columns →
        ∃ s' b, totalGetSi (fun _ => dfA) totalTimeSpentInit 0 =
            .ok (∑ vid ∈ (dfA.rows.map fun r => r "id").toFinset,
              (seriesMax ((idRows dfA vid).map fun r => r totalTimeSpentInit.column)
                - seriesMin ((idRows dfA vid).map fun r => r totalTimeSpentInit.column)), s', b)
          ∧ ∀ vid ∈ (dfA.rows.map fun r => r "id").toFinset,
              seriesMax ((idRows dfA vid).map fun r => r totalTimeSpentInit.column)
                  ∈ ((idRows dfA vid).map fun r => r totalTimeSpentInit.column)
              ∧ (∀ y ∈ ((idRows dfA vid).map fun r => r totalTimeSpentInit.column),
                  y ≤ seriesMax ((idRows dfA vid).map fun r => r totalTimeSpentInit.column))
              ∧ seriesMin ((idRows dfA vid).map fun r => r totalTimeSpentInit.column)
                  ∈ ((idRows dfA vid).map fun r => r totalTimeSpentInit.column)
              ∧ ∀ y ∈ ((idRows dfA vid).map fun r => r totalTimeSpentInit.column),
                  seriesMin ((idRows dfA vid).map fun r => r totalTimeSpentInit.column) ≤ y)
      ∧ (totalTimeSpentInit.column ∉ dfA.columns →
          totalGetSi (fun _ => dfA) totalTimeSpentInit 0 =
            .error (missingColumnMsg totalTimeSpentInit.column))
      ∧ (totalTimeSpentInit.column ∈ dfA.columns → "id" ∉ dfA.columns →
          totalGetSi (fun _ => dfA) totalTimeSpentInit 0 =
            .error (missingColumnMsg "id"))) := by
  have hInv : TotalInv (fun _ => dfA) totalTimeSpentInit := fun _ h => nomatch h
  exact ⟨hInv, total_get_si_range_width_sum (fun _ => dfA) totalTimeSpentInit 0 hInv⟩

/-- C2: after a successful `get_si` call, a second call with the same
trace-file reference returns the identical value without re-scanning the
dataset (the cache-hit branch, state unchanged); a call with a different
reference re-scans and overwrites the cache even when the underlying data
is equal; and every successful call returns the pure, uncached computation
`totalCompute` on the supplied trace file. -/
theorem total_get_si_cache_by_identity (heap : Nat → DataFrame) (s : TotalState) (tf tf' : Nat)
    (hInv : TotalInv heap s) :
    (∀ v s₁ b, totalGetSi heap s tf = .ok (v, s₁, b) →
      totalGetSi heap s₁ tf = .ok (v, s₁, false))
    ∧ (∀ v s₁ b, totalGetSi heap s tf = .ok (v, s₁, b) →
        heap tf' = heap tf → tf' ≠ tf →
        totalGetSi heap s₁ tf' = .ok (totalCompute s.column (heap tf'),
          ⟨s.column, some (totalCompute s.column (heap tf')), some tf'⟩, true))
    ∧ (∀ v s₁ b, totalGetSi heap s tf = .ok (v, s₁, b) →
        v = totalCompute s.column (heap tf)) := by
  refine ⟨fun v s₁ b h => ?_, fun v s₁ b h hdata hne => ?_,
    fun v s₁ b h => (totalGetSi_ok_elim heap s tf v s₁ b hInv h).1⟩
  · obtain ⟨hv, hcol, htf, hval, hc, hid⟩ := totalGetSi_ok_elim heap s tf v s₁ b hInv h
    exact totalGetSi_cached heap s₁ tf (by rw [hcol]; exact hc) hid htf v hval
  · obtain ⟨hv, hcol, htf, hval, hc, hid⟩ := totalGetSi_ok_elim heap s tf v s₁ b hInv h
    have hc' : s₁.column ∈ (heap tf').columns := by rw [hcol, hdata]; exact hc
    have hid' : "id" ∈ (heap tf').columns := by rw [hdata]; exact hid
    have htf' : s₁.traceFile ≠ some tf' := by
      rw [htf]
      exact fun hcon => (Ne.symm hne) (Option.some.inj hcon)
    have hrec := totalGetSi_recompute heap s₁ tf' hc' hid' htf'
    rw [hcol] at hrec
    exact hrec

theorem total_get_si_cache_by_identity_witness :
    TotalInv (fun _ => dfA) totalTimeSpentInit
    ∧ ((∀ v s₁ b, totalGetSi (fun _ => dfA) totalTimeSpentInit 0 = .ok (v, s₁, b) →
        totalGetSi (fun _ => dfA) s₁ 0 = .ok (v, s₁, false))
      ∧ (∀ v s₁ b, totalGetSi (fun _ => dfA) totalTimeSpentInit 0 = .ok (v, s₁, b) →
          (fun _ => dfA : Nat → DataFrame) 1 = (fun _ => dfA : Nat → DataFrame) 0 → 1 ≠ 0 →
          totalGetSi (fun _ => dfA) s₁ 1 =
            .ok (totalCompute totalTimeSpentInit.column ((fun _ => dfA : Nat → DataFrame) 1),
              ⟨totalTimeSpentInit.column,
                some (totalCompute totalTimeSpentInit.column ((fun _ => dfA : Nat → DataFrame) 1)),
                some 1⟩, true))
      ∧ (∀ v s₁ b, totalGetSi (fun _ => dfA) totalTimeSpentInit 0 = .ok (v, s₁, b) →
          v = totalCompute totalTimeSpentInit.column ((fun _ => dfA : Nat → DataFrame) 0))) := by
  have hInv : TotalInv (fun _ => dfA) totalTimeSpentInit := fun _ h => nomatch h
  exact ⟨hInv, total_get_si_cache_by_identity (fun _ => dfA) totalTimeSpentInit 0 1 hInv⟩

/-- C6: `MeanSpeed.get_si` returns the injected `TotalDistanceTraveled`'s
SI value divided by the injected `TotalTimeSpent`'s SI value (given at
least one vehicle and nonzero total time), and `Density.get_si` and
`Flow.get_si` return the injected `TotalTimeSpent`'s, respectively
`TotalDistanceTraveled`'s, SI value divided by `area.get_area()`. -/
theorem composed_statistics_ratios (heap : Nat → DataFrame) (sT sD : TotalState)
    (area : Area) (tf : Nat) (vT vD : ℚ) (sT' sD' : TotalState) (bT bD : Bool)
    (hT : totalGetSi heap sT tf = .ok (vT, sT', bT))
    (hD : totalGetSi heap sD tf = .ok (vD, sD', bD))
    (_hveh : (heap tf).rows ≠ []) (_hvT : vT ≠ 0) :
    meanSpeedGetSi heap ⟨sT, sD⟩ tf = .ok (vD / vT, ⟨sT', sD'⟩)
    ∧ densityGetSi heap sT area tf = .ok (vT / area.get_area, sT', bT)
    ∧ flowGetSi heap sD area tf = .ok (vD / area.get_area, sD', bD) := by
  refine ⟨?_, ?_, ?_⟩
  · dsimp only [meanSpeedGetSi]
    rw [hD, hT]
  · rw [densityGetSi, perAreaGetSi, hT]
    rfl
  · rw [flowGetSi, perAreaGetSi, hD]
    rfl

theorem composed_statistics_ratios_witness :
    (totalGetSi (fun _ => dfA) ⟨"t (s)", some 4, some 0⟩ 0 =
        .ok (4, ⟨"t (s)", some 4, some 0⟩, false)
      ∧ totalGetSi (fun _ => dfA) ⟨"pos (m)", some 40, some 0⟩ 0 =
        .ok (40, ⟨"pos (m)", some 40, some 0⟩, false)
      ∧ dfA.rows ≠ [] ∧ (4 : ℚ) ≠ 0)
    ∧ (meanSpeedGetSi (fun _ => dfA) ⟨⟨"t (s)", some 4, some 0⟩, ⟨"pos (m)", some 40, some 0⟩⟩ 0 =
        .ok (40 / 4, ⟨⟨"t (s)", some 4, some 0⟩, ⟨"pos (m)", some 40, some 0⟩⟩)
      ∧ densityGetSi (fun _ => dfA) ⟨"t (s)", some 4, some 0⟩
          ⟨1000, ⟨"t (s)", 0, 10, true, true⟩, ⟨"pos (m)", 0, 100, true, true⟩⟩ 0 =
        .ok (4 / Area.get_area ⟨1000, ⟨"t (s)", 0, 10, true, true⟩,
          ⟨"pos (m)", 0, 100, true, true⟩⟩, ⟨"t (s)", some 4, some 0⟩, false)
      ∧ flowGetSi (fun _ => dfA) ⟨"pos (m)", some 40, some 0⟩
          ⟨1000, ⟨"t (s)", 0, 10, true, true⟩, ⟨"pos (m)", 0, 100, true, true⟩⟩ 0 =
        .ok (40 / Area.get_area ⟨1000, ⟨"t (s)", 0, 10, true, true⟩,
          ⟨"pos (m)", 0, 100, true, true⟩⟩, ⟨"pos (m)", some 40, some 0⟩, false)) := by
  have hT : totalGetSi (fun _ => dfA) ⟨"t (s)", some 4, some 0⟩ 0 =
      .ok (4, ⟨"t (s)", some 4, some 0⟩, false) :=
    totalGetSi_cached (fun _ => dfA) ⟨"t (s)", some 4, some 0⟩ 0
      (by simp [dfA]) (by simp [dfA]) rfl 4 rfl
  have hD : totalGetSi (fun _ => dfA) ⟨"pos (m)", some 40, some 0⟩ 0 =
      .ok (40, ⟨"pos (m)", some 40, some 0⟩, false) :=
    totalGetSi_cached (fun _ => dfA) ⟨"pos (m)", some 40, some 0⟩ 0
      (by simp [dfA]) (by simp [dfA]) rfl 40 rfl
  have hveh : dfA.rows ≠ [] := by simp [dfA]
  exact ⟨⟨hT, hD, hveh, by norm_num⟩,
    composed_statistics_ratios (fun _ => dfA) ⟨"t (s)", some 4, some 0⟩
      ⟨"pos (m)", some 40, some 0⟩
      ⟨1000, ⟨"t (s)", 0, 10, true, true⟩, ⟨"pos (m)", 0, 100, true, true⟩⟩ 0
      4 40 ⟨"t (s)", some 4, some 0⟩ ⟨"pos (m)", some 40, some 0⟩ false false
      hT hD hveh (by norm_num)⟩

/-- C7: wherever `get_si` succeeds, `get` returns the SI value multiplied
by the statistic's fixed constant: 1/3600 for `TotalTimeSpent`, 1/1000 for
`TotalDistanceTraveled`, 3.6 for `MeanSpeed`, 1000 for `Density`, 3600 for
`Flow`, and 1 for `NumberOfLaneChanges`. -/
theorem get_rescales_get_si (heap : Nat → DataFrame) (sTT sTD sD sF : TotalState)
    (ms : MeanSpeedState) (area : Area) (df : DataFrame) (tf : Nat) :
    (∀ v s' b, totalGetSi heap sTT tf = .ok (v, s', b) →
      totalTimeSpentGet heap sTT tf = .ok (v * (1 / 3600), s', b))
    ∧ (∀ v s' b, totalGetSi heap sTD tf = .ok (v, s', b) →
      totalDistanceTraveledGet heap sTD tf = .ok (v * (1 / 1000), s', b))
    ∧ (∀ v s', meanSpeedGetSi heap ms tf = .ok (v, s') →
      meanSpeedGet heap ms tf = .ok (v * 3.6, s'))
    ∧ (∀ v s' b, densityGetSi heap sD area tf = .ok (v, s', b) →
      densityGet heap sD area tf = .ok (v * 1000, s', b))
    ∧ (∀ v s' b, flowGetSi heap sF area tf = .ok (v, s', b) →
      flowGet heap sF area tf = .ok (v * 3600, s', b))
    ∧ (∀ v, numberOfLaneChangesGetSi df = .ok v →
      numberOfLaneChangesGet df = .ok (v * 1)) := by
  refine ⟨fun v s' b h => ?_, fun v s' b h => ?_, fun v s' h => ?_,
    fun v s' b h => ?_, fun v s' b h => ?_, fun v h => ?_⟩
  · rw [totalTimeSpentGet, h]
    show Except.ok (v / 3600, s', b) = Except.ok (v * (1 / 3600), s', b)
    rw [div_eq_mul_one_div]
  · rw [totalDistanceTraveledGet, h]
    show Except.ok (v / 1000, s', b) = Except.ok (v * (1 / 1000), s', b)
    rw [div_eq_mul_one_div]
  · rw [meanSpeedGet, h]
    rfl
  · rw [densityGet, h]
    rfl
  · rw [flowGet, h]
    rfl
  · rw [mul_one]
    exact h

theorem get_rescales_get_si_witness :
    totalTimeSpentGet (fun _ => dfA) ⟨"t (s)", some 4, some 0⟩ 0 =
      .ok (4 * (1 / 3600), ⟨"t (s)", some 4, some 0⟩, false)
    ∧ totalDistanceTraveledGet (fun _ => dfA) ⟨"pos (m)", some 40, some 0⟩ 0 =
      .ok (40 * (1 / 1000), ⟨"pos (m)", some 40, some 0⟩, false)
    ∧ meanSpeedGet (fun _ => dfA) ⟨⟨"t (s)", some 4, some 0⟩, ⟨"pos (m)", some 40, some 0⟩⟩ 0 =
      .ok ((40 / 4) * 3.6, ⟨⟨"t (s)", some 4, some 0⟩, ⟨"pos (m)", some 40, some 0⟩⟩)
    ∧ densityGet (fun _ => dfA) ⟨"t (s)", some 4, some 0⟩
        ⟨1000, ⟨"t (s)", 0, 10, true, true⟩, ⟨"pos (m)", 0, 100, true, true⟩⟩ 0 =
      .ok ((4 / Area.get_area ⟨1000, ⟨"t (s)", 0, 10, true, true⟩,
        ⟨"pos (m)", 0, 100, true, true⟩⟩) * 1000, ⟨"t (s)", some 4, some 0⟩, false)
    ∧ flowGet (fun _ => dfA) ⟨"pos (m)", some 40, some 0⟩
        ⟨1000, ⟨"t (s)", 0, 10, true, true⟩, ⟨"pos (m)", 0, 100, true, true⟩⟩ 0 =
      .ok ((40 / Area.get_area ⟨1000, ⟨"t (s)", 0, 10, true, true⟩,
        ⟨"pos (m)", 0, 100, true, true⟩⟩) * 3600, ⟨"pos (m)", some 40, some 0⟩, false)
    ∧ numberOfLaneChangesGet dfLC = .ok ((dfLC.rows.length : ℚ) * 1) := by
  have hT : totalGetSi (fun _ => dfA) ⟨"t (s)", some 4, some 0⟩ 0 =
      .ok (4, ⟨"t (s)", some 4, some 0⟩, false) :=
    totalGetSi_cached (fun _ => dfA) ⟨"t (s)", some 4, some 0⟩ 0
      (by simp [dfA]) (by simp [dfA]) rfl 4 rfl
  have hD : totalGetSi (fun _ => dfA) ⟨"pos (m)", some 40, some 0⟩ 0 =
      .ok (40, ⟨"pos (m)", some 40, some 0⟩, false) :=
    totalGetSi_cached (fun _ => dfA) ⟨"pos (m)", some 40, some 0⟩ 0
      (by simp [dfA]) (by simp [dfA]) rfl 40 rfl
  have hms : meanSpeedGetSi (fun _ => dfA)
      ⟨⟨"t (s)", some 4, some 0⟩, ⟨"pos (m)", some 40, some 0⟩⟩ 0 =
      .ok (40 / 4, ⟨⟨"t (s)", some 4, some 0⟩, ⟨"pos (m)", some 40, some 0⟩⟩) := by
    dsimp only [meanSpeedGetSi]
    rw [hD, hT]
  have hden : densityGetSi (fun _ => dfA) ⟨"t (s)", some 4, some 0⟩
      ⟨1000, ⟨"t (s)", 0, 10, true, true⟩, ⟨"pos (m)", 0, 100, true, true⟩⟩ 0 =
      .ok (4 / Area.get_area ⟨1000, ⟨"t (s)", 0, 10, true, true⟩,
        ⟨"pos (m)", 0, 100, true, true⟩⟩, ⟨"t (s)", some 4, some 0⟩, false) := by
    rw [densityGetSi, perAreaGetSi, hT]
    rfl
  have hflow : flowGetSi (fun _ => dfA) ⟨"pos (m)", some 40, some 0⟩
      ⟨1000, ⟨"t (s)", 0, 10, true, true⟩, ⟨"pos (m)", 0, 100, true, true⟩⟩ 0 =
      .ok (40 / Area.get_area ⟨1000, ⟨"t (s)", 0, 10, true, true⟩,
        ⟨"pos (m)", 0, 100, true, true⟩⟩, ⟨"pos (m)", some 40, some 0⟩, false) := by
    rw [flowGetSi, perAreaGetSi, hD]
    rfl
  have hnlc : numberOfLaneChangesGetSi dfLC = .ok ((dfLC.rows.length : ℚ)) := by
    rw [numberOfLaneChangesGetSi, numberOfLaneChangesGet, checkColumn,
      if_pos (by simp [dfLC]), checkColumn]
    rw [if_pos (by simp [dfLC])]
  have h := get_rescales_get_si (fun _ => dfA) ⟨"t (s)", some 4, some 0⟩
    ⟨"pos (m)", some 40, some 0⟩ ⟨"t (s)", some 4, some 0⟩ ⟨"pos (m)", some 40, some 0⟩
    ⟨⟨"t (s)", some 4, some 0⟩, ⟨"pos (m)", some 40, some 0⟩⟩
    ⟨1000, ⟨"t (s)", 0, 10, true, true⟩, ⟨"pos (m)", 0, 100, true, true⟩⟩ dfLC 0
  exact ⟨h.1 4 _ false hT, h.2.1 40 _ false hD, h.2.2.1 (40 / 4) _ hms,
    h.2.2.2.1 _ _ false hden, h.2.2.2.2.1 _ _ false hflow, h.2.2.2.2.2 _ hnlc⟩

end FosimTools
